import Mathlib

/-!
Shallow embedding of `src/refresh_token_generator_for_google_oauth.py`.

The program is a sequential CLI tool; we model its observable behaviour as a
pure function of its environment:
  * stdin lines are explicit `String` arguments (the code applies `.strip()`);
  * the `DSAPICRED` environment variable is an `Option String`;
  * the external transport (`subprocess` running `curl`) is a function
    `List String → String` from the argv list to the process stdout
    (Python `bytes`, modelled as `String`);
  * console output and spawned commands are collected in an event trace;
  * control flow that raises / exits is an `Outcome`.
-/

namespace GoogleOAuth

/-- The double-quote character (kept out of character-literal syntax). -/
def dquote : Char := Char.ofNat 34

/-- The backslash character. -/
def bslash : Char := Char.ofNat 92

/-- The opening-brace character. -/
def lcurly : Char := Char.ofNat 123

/-- The closing-brace character. -/
def rcurly : Char := Char.ofNat 125

/-- Characters removed by Python `str.strip()` (ASCII whitespace; the
Unicode whitespace Python additionally strips never occurs in this tool's
inputs). -/
def pyIsSpace (c : Char) : Bool :=
  c = ' ' || c = '\t' || c = '\n' || c = '\r' || c = Char.ofNat 11 || c = Char.ofNat 12

/-- Python `str.strip()`: drop leading and trailing whitespace. -/
def pyStrip (s : String) : String :=
  ⟨((s.data.dropWhile pyIsSpace).reverse.dropWhile pyIsSpace).reverse⟩

/-- Python `repr` of a string, as it appears inside `str(list)`: the value
between single quotes.  (Escaping of quotes/backslashes inside the value is
not modelled; no value in this program's commands contains them.) -/
def pyRepr (s : String) : String := "'" ++ s ++ "'"

/-- Comma-separated element list of Python `str(list_of_str)`. -/
def pyStrListInner : List String → String
  | [] => ""
  | [x] => pyRepr x
  | x :: y :: xs => pyRepr x ++ ", " ++ pyStrListInner (y :: xs)

/-- Python `str` of a list of strings, e.g. `['curl', 'url']`. -/
def pyStrList (xs : List String) : String := "[" ++ pyStrListInner xs ++ "]"

/-- Python `"%s" % b` for a `bytes` value `b`: the `repr` of the bytes,
`b'...'` (again for byte strings free of characters needing escapes, which
covers every response body this model's JSON layer accepts). -/
def pyBytesStr (s : String) : String := "b'" ++ s ++ "'"

/-! ### json.loads, restricted to the response shapes this program consumes

The program only ever treats the parsed JSON as a dictionary and looks up
string-valued fields (`refresh_token`, `access_token`).  We embed
`json.loads` on flat JSON objects with (escape-free) string keys and string
values; every other body is a parse failure (`jsonDecodeError` below, the
analogue of `json.JSONDecodeError`, itself a `ValueError` subclass). -/

/-- JSON insignificant whitespace. -/
def jsonWs (c : Char) : Bool := c = ' ' || c = '\t' || c = '\n' || c = '\r'

/-- Skip leading JSON whitespace. -/
def skipWs : List Char → List Char
  | [] => []
  | c :: rest => if jsonWs c then skipWs rest else c :: rest

/-- Parse the body of a JSON string after the opening quote, up to and
consuming the closing quote.  Escape sequences are not part of the model. -/
def parseStringBody : List Char → Option (String × List Char)
  | [] => none
  | c :: rest =>
    if c = dquote then some ("", rest)
    else if c = bslash then none
    else
      match parseStringBody rest with
      | some (s, r) => some (⟨c :: s.data⟩, r)
      | none => none

/-- Parse one `"key" : "value"` pair. -/
def parsePair (cs : List Char) : Option ((String × String) × List Char) :=
  match skipWs cs with
  | [] => none
  | c :: rest =>
    if c = dquote then
      match parseStringBody rest with
      | none => none
      | some (k, rest2) =>
        match skipWs rest2 with
        | ':' :: rest3 =>
          match skipWs rest3 with
          | [] => none
          | c2 :: rest4 =>
            if c2 = dquote then
              match parseStringBody rest4 with
              | none => none
              | some (v, rest5) => some ((k, v), rest5)
            else none
        | _ => none
    else none

/-- Parse one or more comma-separated pairs followed by the closing brace. -/
def parsePairs : Nat → List Char → Option (List (String × String) × List Char)
  | 0, _ => none
  | fuel + 1, cs =>
    match parsePair cs with
    | none => none
    | some (p, rest) =>
      match skipWs rest with
      | [] => none
      | c :: rest2 =>
        if c = ',' then
          match parsePairs fuel rest2 with
          | none => none
          | some (ps, rest3) => some (p :: ps, rest3)
        else if c = rcurly then some ([p], rest2)
        else none

/-- Python `json.loads` on the modelled subset: a flat object with string
keys and string values.  Returns the field list in textual order. -/
def jsonLoads (s : String) : Option (List (String × String)) :=
  match skipWs s.data with
  | [] => none
  | c :: rest =>
    if c = lcurly then
      match skipWs rest with
      | [] => none
      | c2 :: rest2 =>
        if c2 = rcurly then
          if skipWs rest2 = [] then some [] else none
        else
          match parsePairs (rest.length + 1) rest with
          | none => none
          | some (ps, rest3) => if skipWs rest3 = [] then some ps else none
    else none

/-- Python `dict` lookup on the parsed field list: with duplicate keys the
later occurrence wins, as in `dict` construction. -/
def dictGet (fields : List (String × String)) (k : String) : Option String :=
  fields.reverse.lookup k

/-! ### Observable effects -/

/-- One observable event of a run: a `print(line)`, the prompt text written
by `input(text)`, a spawned subprocess (its argv), or the optparse help
display (`parser.print_help()`, whose text is generated by the external
optparse library). -/
inductive Event where
  | out : String → Event
  | prompt : String → Event
  | exec : List String → Event
  | help : Event
deriving DecidableEq, Repr

/-- How a run ends: normal value, `raise ValueError(msg)`, a
`json.JSONDecodeError` from `json.loads` (a `ValueError` subclass whose
message is positional, not modelled), or `sys.exit(code)`. -/
inductive Outcome (α : Type) where
  | ok : α → Outcome α
  | valueError : String → Outcome α
  | jsonDecodeError : Outcome α
  | sysExit : Int → Outcome α
deriving DecidableEq, Repr

/-- The commands spawned in a trace, in order. -/
def execs : List Event → List (List String)
  | [] => []
  | Event.exec c :: rest => c :: execs rest
  | _ :: rest => execs rest

/-! ### The program -/

/-- Events of `RunCommand(cmd)`: it prints `"running command: " + str(cmd)`
and a blank line, then spawns the command. -/
def runEvents (cmd : List String) : List Event :=
  [.out ("running command: " ++ pyStrList cmd), .out "", .exec cmd]

/-- `RunCommand(cmd)` as a function of the transport: the subprocess stdout
paired with the events it produces. -/
def RunCommand (http : List String → String) (cmd : List String) :
    String × List Event :=
  (http cmd, runEvents cmd)

/-- The token endpoint URL used by Login and GetAccessTokenOrDie. -/
def tokenEndpoint : String := "https://accounts.google.com/o/oauth2/token"

/-- The message printed by `GetDSApiCredOrDie` when the `DSAPICRED`
environment variable is absent (the triple-quoted literal, verbatim with its
embedded newlines and indentation). -/
def missingCredMsg : String :=
  "Cannot find credentials. You can pass them: client id, client secret, and refresh token via the --cred\n            flag or the DSAPICRED environment variable.\n        "

/-- `GetDSApiCredOrDie(options)`: reads `os.environ["DSAPICRED"]` and strips
it; if the variable is absent, prints guidance and calls `sys.exit(-1)`
(modelled as `Except.error (-1)`). -/
def GetDSApiCredOrDie (env : Option String) : Except Int String × List Event :=
  match env with
  | some v => (.ok (pyStrip v), [])
  | none => (.error (-1), [.out missingCredMsg])

/-- The CPython `ValueError` message raised by unpacking
`[a, b, c] = xs` when `xs` has `n ≠ 3` elements. -/
def unpackMsg (n : Nat) : String :=
  if n < 3 then
    "not enough values to unpack (expected 3, got " ++ toString n ++ ")"
  else "too many values to unpack (expected 3)"

/-- Helper for `pySplitComma`: the accumulator holds the current field's
characters in reverse. -/
def splitCommaAux : List Char → List Char → List String
  | [], acc => [⟨acc.reverse⟩]
  | c :: rest, acc =>
    if c = ',' then ⟨acc.reverse⟩ :: splitCommaAux rest []
    else splitCommaAux rest (c :: acc)

/-- Python `s.split(",")`: the comma-separated fields of `s` (always at
least one field; `""` splits to `[""]`). -/
def pySplitComma (s : String) : List String := splitCommaAux s.data []

/-- `[cid, csc, refresh_token] = cred.split(",")`: three fields, or the
unpacking `ValueError`. -/
def pyUnpack3 (s : String) : Except String (String × String × String) :=
  match pySplitComma s with
  | [a, b, c] => .ok (a, b, c)
  | l => .error (unpackMsg l.length)

/-- The form-encoded body `GetAccessTokenOrDie` POSTs:
`query_string_template % (refresh_token, cid, csc)`. -/
def accessTokenBody (refreshToken cid csc : String) : String :=
  "refresh_token=" ++ refreshToken ++ "&client_id=" ++ cid ++
    "&client_secret=" ++ csc ++ "&grant_type=refresh_token"

/-- How `GetAccessTokenOrDie` ends once the curl stdout is in hand:
parse JSON, return the `access_token` field, or raise. -/
def accessResult (output : String) : Outcome String :=
  match jsonLoads output with
  | none => .jsonDecodeError
  | some fields =>
    match dictGet fields "access_token" with
    | some tok => .ok tok
    | none => .valueError ("missing access_token in response: " ++ pyBytesStr output)

/-- `GetAccessTokenOrDie(options)`: resolve credentials, unpack the triple,
POST the refresh-token exchange, extract `access_token`. -/
def GetAccessTokenOrDie (env : Option String) (http : List String → String) :
    Outcome String × List Event :=
  match GetDSApiCredOrDie env with
  | (.error n, ev) => (.sysExit n, ev)
  | (.ok cred, ev0) =>
    match pyUnpack3 cred with
    | .error m => (.valueError m, ev0)
    | .ok (cid, csc, refreshToken) =>
      (accessResult (RunCommand http ["curl", "--data",
          accessTokenBody refreshToken cid csc, tokenEndpoint]).1,
       ev0 ++ (RunCommand http ["curl", "--data",
          accessTokenBody refreshToken cid csc, tokenEndpoint]).2)

/-- The revocation URL `Logout` GETs: the refresh token is concatenated,
un-escaped, as the `token` query value. -/
def revokeUrl (refreshToken : String) : String :=
  "https://accounts.google.com/o/oauth2/revoke?token=" ++ refreshToken

/-- `Logout(options)`: resolve credentials, unpack, GET the revoke endpoint;
the response body is discarded. -/
def Logout (env : Option String) (http : List String → String) :
    Outcome Unit × List Event :=
  match GetDSApiCredOrDie env with
  | (.error n, ev) => (.sysExit n, ev)
  | (.ok cred, ev0) =>
    match pyUnpack3 cred with
    | .error m => (.valueError m, ev0)
    | .ok (_, _, refreshToken) =>
      (.ok (), ev0 ++ (RunCommand http ["curl", revokeUrl refreshToken]).2)

/-- The authorization URL `Login` prints (source lines 59–67): the fixed
URL-escaped scope prefix, the raw user scope, then the remaining query
parameters in the literal order of the source. -/
def loginAuthUrl (scope cid : String) : String :=
  "https://accounts.google.com/o/oauth2/auth?scope=https%3A%2F%2Fwww.googleapis.com%2Fauth%2F"
    ++ scope ++
    "&redirect_uri=urn:ietf:wg:oauth:2.0:oob&response_type=code&access_type=offline&client_id="
    ++ cid

/-- The form-encoded body `Login` POSTs to exchange the authorization code. -/
def loginTokenBody (code cid csc : String) : String :=
  "code=" ++ code ++ "&client_id=" ++ cid ++ "&client_secret=" ++ csc ++
    "&redirect_uri=urn:ietf:wg:oauth:2.0:oob&grant_type=authorization_code"

/-- The argv list `Login` hands to `RunCommand`. -/
def loginCurlCmd (code cid csc : String) : List String :=
  ["curl", "-s", "--data", loginTokenBody code cid csc, tokenEndpoint]

/-- The console events `Login` produces before running curl: the setup
instructions, the prompts, and the authorization URL (source lines 34–70). -/
def loginPre (scope cid : String) : List Event :=
  [.out "",
   .out "This script requires setting up a Google API project.",
   .out "If you have not done so, follow these instructions:",
   .out "1. Visit https://console.developers.google.com",
   .out "2. Create a new project and go to \"API & auth -> credentials\".",
   .out "4. Create an OAuth2 client ID.",
   .out "5. When picking application type, choose \"Installed application\", type \"Other\".",
   .out "6. Enter the cliend id and client secret below:",
   .out "",
   .prompt "Client ID: ",
   .prompt "Client secret: ",
   .out "Please go to https://developers.google.com/oauthplayground/",
   .out "and type the scope of your application (e.g analytics)",
   .prompt "Scope: ",
   .out "",
   .out "Please open the following URL in the browser to authenticate. When successful, the browser will display a code. Enter the code below.",
   .out "",
   .out (loginAuthUrl scope cid),
   .out "",
   .prompt "Code: ",
   .out ""]

/-- How `Login` ends once the curl stdout is in hand: parse JSON; on a
`refresh_token` field print the credential triple (one print with embedded
newlines, i.e. the three lines `cid,` / `csc,` / token), else raise
`ValueError("Missing refresh_token in response: %s" % output)`. -/
def loginTail (cid csc output : String) : Outcome Unit × List Event :=
  match jsonLoads output with
  | none => (.jsonDecodeError, [])
  | some fields =>
    match dictGet fields "refresh_token" with
    | some rt =>
      (.ok (),
       [.out "Login successful.", .out "",
        .out "# DSAPI credentials: \"client_id,client_secret,refresh_token\"",
        .out (cid ++ ",\n" ++ csc ++ ",\n" ++ rt), .out ""])
    | none =>
      (.valueError ("Missing refresh_token in response: " ++ pyBytesStr output), [])

/-- `Login()` as a function of the transport and the four stdin lines
(client id, client secret, scope, authorization code; each is stripped). -/
def Login (http : List String → String) (cidIn cscIn scopeIn codeIn : String) :
    Outcome Unit × List Event :=
  ((loginTail (pyStrip cidIn) (pyStrip cscIn)
      (RunCommand http (loginCurlCmd (pyStrip codeIn) (pyStrip cidIn) (pyStrip cscIn))).1).1,
   loginPre (pyStrip scopeIn) (pyStrip cidIn) ++
     (RunCommand http (loginCurlCmd (pyStrip codeIn) (pyStrip cidIn) (pyStrip cscIn))).2 ++
     (loginTail (pyStrip cidIn) (pyStrip cscIn)
       (RunCommand http (loginCurlCmd (pyStrip codeIn) (pyStrip cidIn) (pyStrip cscIn))).1).2)

/-- The two boolean flags `Main` dispatches on (`optparse` with
`action="store_true"`, default `False` for both). -/
structure Options where
  login : Bool
  logout : Bool
deriving DecidableEq, Repr

/-- `Main(argv)` after flag parsing: `--login` takes precedence, then
`--logout`, else `parser.print_help()` and a normal return (process exit
status 0). -/
def Main (opts : Options) (env : Option String) (http : List String → String)
    (cidIn cscIn scopeIn codeIn : String) : Outcome Unit × List Event :=
  if opts.login then Login http cidIn cscIn scopeIn codeIn
  else if opts.logout then Logout env http
  else (.ok (), [.help])

/-! ### Auxiliary observers and test stubs -/

/-- Checks, walking the trace left to right while accumulating the lines
printed so far, that every spawned command was announced beforehand by a
`print` of `"running command: " + str(cmd)`. -/
def announced (printed : List String) : List Event → Bool
  | [] => true
  | Event.out s :: rest => announced (s :: printed) rest
  | Event.prompt _ :: rest => announced printed rest
  | Event.help :: rest => announced printed rest
  | Event.exec cmd :: rest =>
    printed.contains ("running command: " ++ pyStrList cmd) && announced printed rest

/-- Server stub answering every request with a refresh-token grant. -/
def httpRefreshStub : List String → String :=
  fun _ => "\x7b\"refresh_token\":\"R1\"\x7d"

/-- Server stub answering every request with an access-token grant. -/
def httpAccessStub : List String → String :=
  fun _ => "\x7b\"access_token\":\"A1\"\x7d"

/-- Server stub answering every request with an OAuth error object. -/
def httpErrorStub : List String → String :=
  fun _ => "\x7b\"error\":\"invalid_grant\"\x7d"

/-! ### Helper lemmas -/

/-- Whatever `Login` does after the curl call prints no further command, so
any announcement invariant is preserved. -/
theorem announced_loginTail (p : List String) (cid csc output : String) :
    announced p (loginTail cid csc output).2 = true := by
  unfold loginTail
  split
  · rfl
  · split
    · rfl
    · rfl

/-- Every command `Login` spawns was announced first. -/
theorem loginAnnounced (http : List String → String)
    (cidIn cscIn scopeIn codeIn : String) :
    announced [] (Login http cidIn cscIn scopeIn codeIn).2 = true := by
  simp only [Login, RunCommand, List.append_assoc]
  simp only [loginPre, List.cons_append, List.nil_append]
  simp only [announced]
  simp [announced_loginTail]

/-- Every command `GetAccessTokenOrDie` spawns was announced first. -/
theorem accessAnnounced (env : Option String) (http : List String → String) :
    announced [] (GetAccessTokenOrDie env http).2 = true := by
  cases env with
  | none => rfl
  | some v =>
    simp only [GetAccessTokenOrDie, GetDSApiCredOrDie]
    cases h : pyUnpack3 (pyStrip v) with
    | error m => simp [h, announced]
    | ok t =>
      obtain ⟨cid, csc, rt⟩ := t
      simp [h, announced, RunCommand, runEvents]

/-- Every command `Logout` spawns was announced first. -/
theorem logoutAnnounced (env : Option String) (http : List String → String) :
    announced [] (Logout env http).2 = true := by
  cases env with
  | none => rfl
  | some v =>
    simp only [Logout, GetDSApiCredOrDie]
    cases h : pyUnpack3 (pyStrip v) with
    | error m => simp [h, announced]
    | ok t =>
      obtain ⟨cid, csc, rt⟩ := t
      simp [h, announced, RunCommand, runEvents]

/-- Each element's `repr` occurs inside the element list of `str(cmd)`. -/
theorem pyStrListInner_embeds (x : String) (xs : List String) (h : x ∈ xs) :
    ∃ p q, pyStrListInner xs = p ++ pyRepr x ++ q := by
  induction xs with
  | nil => cases h
  | cons y ys ih =>
    cases ys with
    | nil =>
      rcases List.mem_singleton.mp h with rfl
      exact ⟨"", "", by simp [pyStrListInner]⟩
    | cons z zs =>
      rcases List.mem_cons.mp h with rfl | hmem
      · exact ⟨"", ", " ++ pyStrListInner (z :: zs),
          by simp [pyStrListInner, String.append_assoc]⟩
      · obtain ⟨p, q, hpq⟩ := ih hmem
        exact ⟨pyRepr y ++ ", " ++ p, q,
          by simp [pyStrListInner, hpq, String.append_assoc]⟩

/-- Every element of `cmd` occurs verbatim inside `str(cmd)`: the printed
command line embeds every argv element, secrets included. -/
theorem pyStrList_embeds (cmd : List String) (x : String) (h : x ∈ cmd) :
    ∃ p q, pyStrList cmd = p ++ x ++ q := by
  obtain ⟨p, q, hpq⟩ := pyStrListInner_embeds x cmd h
  exact ⟨"[" ++ p ++ "'", "'" ++ q ++ "]",
    by simp [pyStrList, hpq, pyRepr, String.append_assoc]⟩

/-! ### The claims -/

/-- C1: for every credential string that resolves to exactly the three
comma-separated fields `A`, `B`, `C`, `GetAccessTokenOrDie` spawns exactly
one command, a POST whose form-encoded body is the literal
`refresh_token=C&client_id=A&client_secret=B&grant_type=refresh_token`,
with that parameter order, to the token endpoint. -/
theorem C1_access_token_request_body (v A B C : String)
    (http : List String → String)
    (h : pySplitComma (pyStrip v) = [A, B, C]) :
    execs (GetAccessTokenOrDie (some v) http).2 =
      [["curl", "--data",
        "refresh_token=" ++ C ++ "&client_id=" ++ A ++ "&client_secret=" ++ B ++
          "&grant_type=refresh_token",
        tokenEndpoint]] := by
  simp [GetAccessTokenOrDie, GetDSApiCredOrDie, pyUnpack3, h, RunCommand, runEvents,
    execs, accessTokenBody]

/-- Witness for C1 at the concrete credential string `"A,B,C"`. -/
theorem C1_access_token_request_body_witness :
    execs (GetAccessTokenOrDie (some "A,B,C") httpAccessStub).2 =
      [["curl", "--data",
        "refresh_token=" ++ "C" ++ "&client_id=" ++ "A" ++ "&client_secret=" ++ "B" ++
          "&grant_type=refresh_token",
        tokenEndpoint]] :=
  C1_access_token_request_body "A,B,C" "A" "B" "C" httpAccessStub (by decide)

/-- C2: for every response body that parses as JSON but lacks a
`refresh_token` field, `Login` raises a `ValueError` whose message contains
the original raw response body (the body occurs verbatim inside the
message, inside the `b'...'` rendering of the bytes). -/
theorem C2_login_missing_refresh_token_raises (http : List String → String)
    (cidIn cscIn scopeIn codeIn : String) (fields : List (String × String))
    (hp : jsonLoads (http (loginCurlCmd (pyStrip codeIn) (pyStrip cidIn) (pyStrip cscIn))) =
      some fields)
    (hm : dictGet fields "refresh_token" = none) :
    ∃ p q, (Login http cidIn cscIn scopeIn codeIn).1 =
      .valueError
        (p ++ http (loginCurlCmd (pyStrip codeIn) (pyStrip cidIn) (pyStrip cscIn)) ++ q) := by
  refine ⟨"Missing refresh_token in response: " ++ "b'", "'", ?_⟩
  simp only [Login, loginTail, RunCommand, hp, hm, pyBytesStr]
  rw [← String.append_assoc, ← String.append_assoc]

/-- Witness for C2 at the well-formed error object
`\x7b"error":"invalid_grant"\x7d`. -/
theorem C2_login_missing_refresh_token_raises_witness :
    ∃ p q, (Login httpErrorStub "CID" "SEC" "analytics" "CODE").1 =
      .valueError
        (p ++ httpErrorStub (loginCurlCmd (pyStrip "CODE") (pyStrip "CID") (pyStrip "SEC")) ++ q) :=
  C2_login_missing_refresh_token_raises httpErrorStub "CID" "SEC" "analytics" "CODE"
    [("error", "invalid_grant")] (by decide) (by decide)

/-- C3: round trip.  `Login` against a server returning
`\x7b"refresh_token":"R1"\x7d` with client id `CID` and secret `SEC` succeeds and
prints the credential triple as the single print `"CID,\nSEC,\nR1"` — the
three lines `CID,` / `SEC,` / `R1` in that order; `GetAccessTokenOrDie`
with credential string `"CID,SEC,R1"` against a server returning
`\x7b"access_token":"A1"\x7d` returns `"A1"`. -/
theorem C3_round_trip :
    Event.out "CID,\nSEC,\nR1" ∈ (Login httpRefreshStub "CID" "SEC" "analytics" "CODE").2 ∧
    (Login httpRefreshStub "CID" "SEC" "analytics" "CODE").1 = .ok () ∧
    (GetAccessTokenOrDie (some "CID,SEC,R1") httpAccessStub).1 = .ok "A1" := by
  decide

/-- C4: with no credential source configured, both operations that need
credentials print the configuration-error guidance, end in `sys.exit(-1)`,
and spawn no command (no network call). -/
theorem C4_missing_credentials_dies (http : List String → String) :
    GetAccessTokenOrDie none http = (.sysExit (-1), [.out missingCredMsg]) ∧
    Logout none http = (.sysExit (-1), [.out missingCredMsg]) ∧
    execs (GetAccessTokenOrDie none http).2 = [] ∧
    execs (Logout none http).2 = [] :=
  ⟨rfl, rfl, rfl, rfl⟩

/-- C5: for every credential string that does not split on comma into
exactly three fields, `GetAccessTokenOrDie` fails with the unpacking
`ValueError` and spawns no command (no network call). -/
theorem C5_malformed_credential_unpack_error (v : String)
    (http : List String → String)
    (h : (pySplitComma (pyStrip v)).length ≠ 3) :
    (GetAccessTokenOrDie (some v) http).1 =
      .valueError (unpackMsg (pySplitComma (pyStrip v)).length) ∧
    execs (GetAccessTokenOrDie (some v) http).2 = [] := by
  have hu : pyUnpack3 (pyStrip v) =
      .error (unpackMsg (pySplitComma (pyStrip v)).length) := by
    unfold pyUnpack3
    split
    · next a b c heq => exact absurd (by rw [heq]; rfl) h
    · next l heq => rfl
  constructor <;> simp [GetAccessTokenOrDie, GetDSApiCredOrDie, hu, execs]

/-- Witness for C5 at the two-field credential string `"CID,SEC"`. -/
theorem C5_malformed_credential_unpack_error_witness :
    (GetAccessTokenOrDie (some "CID,SEC") httpAccessStub).1 =
      .valueError (unpackMsg (pySplitComma (pyStrip "CID,SEC")).length) ∧
    execs (GetAccessTokenOrDie (some "CID,SEC") httpAccessStub).2 = [] :=
  C5_malformed_credential_unpack_error "CID,SEC" httpAccessStub (by decide)

/-- C6: for every credential string resolving to `cid,sec,r1`, `Logout`
spawns exactly one command, a GET of the revoke endpoint with `token=r1`
concatenated un-escaped, and returns normally whatever the response body
is (it is discarded; no success or failure signal reaches the caller). -/
theorem C6_logout_single_get_revoke (v cid sec r1 : String)
    (http : List String → String)
    (h : pySplitComma (pyStrip v) = [cid, sec, r1]) :
    execs (Logout (some v) http).2 =
      [["curl", "https://accounts.google.com/o/oauth2/revoke?token=" ++ r1]] ∧
    (Logout (some v) http).1 = .ok () := by
  constructor <;>
    simp [Logout, GetDSApiCredOrDie, pyUnpack3, h, RunCommand, runEvents, execs, revokeUrl]

/-- Witness for C6 at the concrete credential string `"CID,SEC,R1"`. -/
theorem C6_logout_single_get_revoke_witness :
    execs (Logout (some "CID,SEC,R1") httpAccessStub).2 =
      [["curl", "https://accounts.google.com/o/oauth2/revoke?token=" ++ "R1"]] ∧
    (Logout (some "CID,SEC,R1") httpAccessStub).1 = .ok () :=
  C6_logout_single_get_revoke "CID,SEC,R1" "CID" "SEC" "R1" httpAccessStub (by decide)

/-- C7: for every (stripped) user-supplied scope and client id, `Login`
displays the authorization URL built from the base
`https://accounts.google.com/o/oauth2/auth` with, in order: `scope` (the
URL-escaped fixed prefix followed by the scope un-escaped),
`redirect_uri=urn:ietf:wg:oauth:2.0:oob`, `response_type=code`,
`access_type=offline`, and `client_id`. -/
theorem C7_login_auth_url (http : List String → String)
    (cidIn cscIn scopeIn codeIn : String) :
    Event.out
      ("https://accounts.google.com/o/oauth2/auth?scope=https%3A%2F%2Fwww.googleapis.com%2Fauth%2F"
        ++ pyStrip scopeIn ++
        "&redirect_uri=urn:ietf:wg:oauth:2.0:oob&response_type=code&access_type=offline&client_id="
        ++ pyStrip cidIn) ∈ (Login http cidIn cscIn scopeIn codeIn).2 := by
  simp [Login, loginPre, loginAuthUrl]

/-- C8: the dispatcher invokes `Login` whenever `--login` is set (whatever
`--logout` is), invokes `Logout` when only `--logout` is set, and with
neither flag displays the help text and returns normally (exit status 0). -/
theorem C8_dispatch_precedence (b : Bool) (env : Option String)
    (http : List String → String) (w x y z : String) :
    Main ⟨true, b⟩ env http w x y z = Login http w x y z ∧
    Main ⟨false, true⟩ env http w x y z = Logout env http ∧
    Main ⟨false, false⟩ env http w x y z = (.ok (), [.help]) :=
  ⟨rfl, rfl, rfl⟩

/-- C9: in `Login`, `GetAccessTokenOrDie` and `Logout`, every spawned curl
command is preceded on standard output by a print of the full command line
(`"running command: " + str(cmd)`), and `str(cmd)` embeds every argv
element verbatim — hence the client secret, authorization code, and
refresh token carried in those command lines are printed. -/
theorem C9_command_line_printed_before_http :
    (∀ (http : List String → String) (cidIn cscIn scopeIn codeIn : String),
        announced [] (Login http cidIn cscIn scopeIn codeIn).2 = true) ∧
    (∀ (env : Option String) (http : List String → String),
        announced [] (GetAccessTokenOrDie env http).2 = true) ∧
    (∀ (env : Option String) (http : List String → String),
        announced [] (Logout env http).2 = true) ∧
    (∀ (cmd : List String) (x : String), x ∈ cmd →
        ∃ p q, pyStrList cmd = p ++ x ++ q) :=
  ⟨loginAnnounced, accessAnnounced, logoutAnnounced, pyStrList_embeds⟩

/-- Witness for C9: a concrete `Logout` trace is fully announced, and a
concrete secret argv element occurs inside the printed command line. -/
theorem C9_command_line_printed_before_http_witness :
    announced [] (Logout (some "CID,SEC,R1") httpAccessStub).2 = true ∧
    ∃ p q, pyStrList ["curl",
        "https://accounts.google.com/o/oauth2/revoke?token=R1"] =
      p ++ "https://accounts.google.com/o/oauth2/revoke?token=R1" ++ q :=
  ⟨C9_command_line_printed_before_http.2.2.1 (some "CID,SEC,R1") httpAccessStub,
   C9_command_line_printed_before_http.2.2.2
     ["curl", "https://accounts.google.com/o/oauth2/revoke?token=R1"]
     "https://accounts.google.com/o/oauth2/revoke?token=R1" (by decide)⟩

/-- C10: the credential accessor strips surrounding whitespace from the
environment variable's value before returning it; in particular the stored
value `" A,B,C "` resolves to the credential string `"A,B,C"`. -/
theorem C10_credential_strip (v : String) :
    (GetDSApiCredOrDie (some v)).1 = .ok (pyStrip v) ∧
    (GetDSApiCredOrDie (some " A,B,C ")).1 = .ok "A,B,C" :=
  ⟨rfl, rfl⟩

end GoogleOAuth
